import Mathlib

/-
Verification of the Controller Link (tooltalk_api.py, class TooltalkAPI).

The Python class performs blocking socket I/O, wall-clock timing and calls
into an ambient random number generator.  The shallow embedding below makes
every external effect an explicit parameter:

* the transport is an oracle (environment record) supplying the outcome of
  each socket primitive: whether ping succeeded, whether connect/send/recv
  raised (and which exception class), and the text produced by the
  response reader;
* wall-clock time inside the 30 s poll loop is a function from the loop
  iteration index to the elapsed seconds (a rational), supplied by the
  environment; the Python loop advances it by at least one second per
  iteration (two 0.5 s sleeps);
* random.uniform draws are explicit rational parameters, constrained by
  hypotheses to the interval the Python call uses;
* each operation returns, besides its Python return value, the updated
  object state (the connected flag and whether socket_connection is set)
  and a trace of transport events (open, close, send) so that resource
  accounting can be stated;
* Python exceptions escaping a function are an Except value; functions
  that catch everything and return a value are total functions.

Machine integers do not occur: the wire value int(target_torque * 100) is
modelled on Int (Python integers are unbounded), and torque values are
rationals.
-/

deriving instance DecidableEq for Except

namespace Tooltalk

/-- Value of a decimal digit character, as Python int(ch) would give for
a digit; takeDigits only applies this to characters accepted by isDigit. -/
def digitVal (c : Char) : Nat := c.toNat - 48

/-- Longest prefix of the character list consisting of decimal digits,
as digit values.  This is the run the regex engine consumes greedily at
one starting position. -/
def takeDigits : List Char → List Nat
  | [] => []
  | c :: cs => if c.isDigit then digitVal c :: takeDigits cs else []

/-- Decimal value of a big-endian digit list, as int() of the matched text. -/
def digitsToNat (ds : List Nat) : Nat :=
  ds.foldl (fun a d => a * 10 + d) 0

/-- Leftmost match of the Python regex r"(\d\x7b4,6\x7d)" : scan positions left
to right; at a position whose maximal digit run has length at least 4,
the greedy engine takes at most 6 of those digits and succeeds; otherwise
move one character right.  Returns the numeric value of the matched text. -/
def firstDigitRun : List Char → Option Nat
  | [] => none
  | c :: cs =>
    if 4 ≤ (takeDigits (c :: cs)).length then
      some (digitsToNat ((takeDigits (c :: cs)).take 6))
    else firstDigitRun cs

/-- Boolean test that the first list is an initial segment of the second. -/
def leadsWith : List Char → List Char → Bool
  | [], _ => true
  | _ :: _, [] => false
  | a :: as, b :: bs => a == b && leadsWith as bs

/-- Python substring containment (needle in haystack), by scanning. -/
def containsSub (needle : List Char) : List Char → Bool
  | [] => needle.isEmpty
  | c :: t => leadsWith needle (c :: t) || containsSub needle t

/-- Truncation of a rational toward zero, the behaviour of Python int()
on the torque value, computed on the reduced numerator and denominator. -/
def intTrunc (q : ℚ) : ℤ :=
  if 0 ≤ q.num then ((q.num.toNat / q.den : ℕ) : ℤ)
  else -(((((-q.num).toNat) / q.den : ℕ) : ℤ))

/-- Big-endian decimal digits, by repeated division; fuel bounds the
recursion and any fuel at least the number itself is enough. -/
def digitsAuxBE : Nat → Nat → List Nat
  | 0, _ => []
  | fuel + 1, n => if n = 0 then [] else digitsAuxBE fuel (n / 10) ++ [n % 10]

/-- Big-endian decimal digits of a natural number (empty for 0, like the
digit list underlying Python str formatting of 0 before padding). -/
def natDigitsBE (n : Nat) : List Nat :=
  digitsAuxBE n n

/-- Left-pad a digit list with zeros to the given width. -/
def padZeros (w : Nat) (ds : List Nat) : List Nat :=
  List.replicate (w - ds.length) 0 ++ ds

/-- Render a digit-value list as a string of digit characters. -/
def digitsToString (ds : List Nat) : String :=
  ⟨ds.map Nat.digitChar⟩

/-- Python format spec 04d: decimal, zero-padded to overall width 4, the
sign occupying one column for negative values. -/
def formatInt04 (n : ℤ) : String :=
  if n < 0 then "-" ++ digitsToString (padZeros 3 (natDigitsBE (-n).toNat))
  else digitsToString (padZeros 4 (natDigitsBE n.toNat))

/-- Wire unit of a torque value: torque_cnm = int(target_torque * 100),
the conversion in set_torque_target. -/
def torqueCnm (t : ℚ) : ℤ :=
  intTrunc (t * 100)

/-- The parsing half of the wire round trip: first 4-6 digit run of the
text, divided by 100 (the numeric part of parse_torque_result). -/
def parseWire (s : String) : Option ℚ :=
  (firstDigitRun s.data).map (fun n => (n : ℚ) / 100)

/-- Round trip of a torque value through the wire format: format as the
4-digit zero-padded truncated centi-Ncm field, parse the first digit run
back and divide by 100. -/
def roundTrip (t : ℚ) : Option ℚ :=
  parseWire (formatInt04 (torqueCnm t))

/-- Exception classes distinguished by the except clauses of the source:
socket.timeout and ConnectionRefusedError get their own handlers in
test_connection; every other exception class behaves like other. -/
inductive PyErr
  | timeout
  | connRefused
  | other
deriving DecidableEq

/-- Mutable attributes of the TooltalkAPI object that the claims concern:
the connected flag, and whether the socket_connection attribute holds a
socket object (true) or None (false).  Closing a socket does not set the
attribute to None by itself, so a closed-but-still-referenced socket
keeps the field true. -/
structure LinkState where
  connected : Bool
  socket_connection : Bool
deriving DecidableEq

/-- Transport events emitted by an operation: socket creation, socket
close, and a send of a command frame. -/
inductive Ev
  | opened
  | closed
  | sent (cmd : String)
deriving DecidableEq

/-- Number of socket-open events in a trace. -/
def opens (tr : List Ev) : Nat :=
  tr.countP (fun e => match e with | Ev.opened => true | _ => false)

/-- Number of socket-close events in a trace. -/
def closes (tr : List Ev) : Nat :=
  tr.countP (fun e => match e with | Ev.closed => true | _ => false)

/-- Protocol frames, verbatim from the source. -/
def identCmd : String := "0001 0001 0040 0001\r\n"

/-- Enable remote control frame. -/
def enableRemoteCmd : String := "0001 0002 0042 0001\r\n"

/-- Disable remote control frame. -/
def disableRemoteCmd : String := "0001 0002 0042 0000\r\n"

/-- Start tightening cycle frame. -/
def startCycleCmd : String := "0001 0018 0041 0001\r\n"

/-- Request last tightening result frame. -/
def pollCmd : String := "0001 0033 0200\r\n"

/-- Set-torque frame: "0001 0014 0043 " followed by the 4-digit
zero-padded truncated centi-Ncm value. -/
def setTorqueCmd (t : ℚ) : String :=
  "0001 0014 0043 " ++ formatInt04 (torqueCnm t) ++ "\r\n"

/-- Uppercased characters of a string, as response_str.upper(). -/
def upperData (s : String) : List Char :=
  s.data.map Char.toUpper

/-- Identification patterns sought by test_connection in the uppercased
response: MT6000, ATLAS, 0040, OK. -/
def hasIdentPattern (s : String) : Bool :=
  containsSub "MT6000".data (upperData s) || containsSub "ATLAS".data (upperData s) ||
    containsSub "0040".data (upperData s) || containsSub "OK".data (upperData s)

/-- Oracle for one test_connection call: ping outcome, the exception (if
any) raised by each socket primitive, and the bytes recv returned when it
did not raise.  _ping_host catches every exception internally and returns
a boolean, so a single flag models it. -/
structure ProbeEnv where
  pingOk : Bool
  connectErr : Option PyErr
  sendErr : Option PyErr
  recvErr : Option PyErr
  response : String

/-- test_connection, translated clause by clause.  The inner try catches
only socket.timeout and ConnectionRefusedError (closing the temporary
socket); any other exception escapes to the outer handler, which returns
False without touching the socket.  The method never assigns to self, so
the state argument is returned unchanged on every path. -/
def test_connection (st : LinkState) (env : ProbeEnv) : Bool × LinkState × List Ev :=
  if env.pingOk = false then (false, st, [])
  else
    match env.connectErr with
    | some PyErr.other => (false, st, [Ev.opened])
    | some _ => (false, st, [Ev.opened, Ev.closed])
    | none =>
      match env.sendErr with
      | some PyErr.other => (false, st, [Ev.opened, Ev.sent identCmd])
      | some _ => (false, st, [Ev.opened, Ev.sent identCmd, Ev.closed])
      | none =>
        match env.recvErr with
        | some PyErr.other => (false, st, [Ev.opened, Ev.sent identCmd])
        | some _ => (false, st, [Ev.opened, Ev.sent identCmd, Ev.closed])
        | none =>
          if env.response.isEmpty then (false, st, [Ev.opened, Ev.sent identCmd, Ev.closed])
          else if hasIdentPattern env.response then
            (true, st, [Ev.opened, Ev.sent identCmd, Ev.closed])
          else (false, st, [Ev.opened, Ev.sent identCmd, Ev.closed])

/-- Oracle for one connect call.  _read_response catches every exception
and returns a (possibly empty) string, so only its text is an oracle
field; the three except handlers of connect all perform the same cleanup,
so the exception class of a failed connect or send does not matter here. -/
structure ConnectEnv where
  pingOk : Bool
  connectErr : Option PyErr
  sendErr : Option PyErr
  response : String

/-- connect, translated clause by clause.  Note the two early-return
failure paths (ping failure, response without OK) leave self.connected
untouched, while the except handlers set it to False; the ping-failure
path also leaves self.socket_connection referencing the just-closed
previous socket instead of None. -/
def connect (st : LinkState) (env : ConnectEnv) : Bool × LinkState × List Ev :=
  let tr0 : List Ev := if st.socket_connection then [Ev.closed] else []
  if env.pingOk = false then
    (false, st, tr0)
  else
    match env.connectErr with
    | some _ => (false, ⟨false, false⟩, tr0 ++ [Ev.opened, Ev.closed])
    | none =>
      match env.sendErr with
      | some _ => (false, ⟨false, false⟩, tr0 ++ [Ev.opened, Ev.sent enableRemoteCmd, Ev.closed])
      | none =>
        if containsSub "OK".data env.response.data then
          (true, ⟨true, true⟩, tr0 ++ [Ev.opened, Ev.sent enableRemoteCmd])
        else
          (false, ⟨st.connected, false⟩, tr0 ++ [Ev.opened, Ev.sent enableRemoteCmd, Ev.closed])

/-- Oracle for one disconnect call: whether the best-effort disable send
raises (it does, e.g., when the socket is already closed). -/
structure DisconnectEnv where
  sendErr : Option PyErr

/-- disconnect, translated clause by clause.  The close call sits inside
the try block, after the disable send; the finally block only clears the
connected flag.  A send that raises therefore skips the close. -/
def disconnect (st : LinkState) (env : DisconnectEnv) : LinkState × List Ev :=
  if st.socket_connection && st.connected then
    match env.sendErr with
    | some _ => (⟨false, st.socket_connection⟩, [Ev.sent disableRemoteCmd])
    | none => (⟨false, false⟩, [Ev.sent disableRemoteCmd, Ev.closed])
  else
    if st.socket_connection then (⟨false, false⟩, [Ev.closed])
    else (⟨false, st.socket_connection⟩, [])

/-- The value record returned by run_torque_test and simulate_torque_test
(a Python dict with these four keys). -/
structure TorqueTestResult where
  hole_label : String
  target_torque : ℚ
  actual_torque : ℚ
  timestamp : String
deriving DecidableEq

/-- parse_torque_result: first 4-6 digit run of the response divided by
100; if the regex finds nothing, fall back to target plus the uniform
draw from [-0.5, 0.5] (the draw is the explicit jitter parameter).  The
except clause of the source returns the same fallback; no step of the
translated body (regex search, float of a digit string) can raise, so it
never fires. -/
def parse_torque_result (response : String) (target : ℚ) (jitter : ℚ) : ℚ :=
  match firstDigitRun response.data with
  | some n => (n : ℚ) / 100
  | none => target + jitter

/-- set_torque_target: refuse when the socket attribute is None or the
flag is down; otherwise send the set-torque frame and report whether the
response contains OK.  A raise anywhere inside is caught and yields
False. -/
def set_torque_target (st : LinkState) (sendErr : Option PyErr) (resp : String) (t : ℚ) :
    Bool × List Ev :=
  if st.socket_connection = false || st.connected = false then (false, [])
  else
    match sendErr with
    | some _ => (false, [Ev.sent (setTorqueCmd t)])
    | none => (containsSub "OK".data resp.data, [Ev.sent (setTorqueCmd t)])

/-- Failure conditions raised inside the try block of run_torque_test and
re-raised wrapped in "Torque test failed: ...". -/
inductive InnerErr
  | setTarget
  | transport
  | timeout
  | fuelOut
deriving DecidableEq

/-- Outcome of run_torque_test when it raises: the pre-try "Not connected
to controller" exception, or a wrapped inner failure. -/
inductive RunErr
  | notConnected
  | failed (e : InnerErr)
deriving DecidableEq

/-- Oracle for one run_torque_test call.  pollTime k is the value of
time.time() - start_time observed at the while-condition of iteration k;
the sleeps inside the loop body force pollTime (k+1) to be at least
pollTime k + 1 on real hardware, which theorems take as a hypothesis.
fallbackJitter is the uniform draw parse_torque_result would use, and
now the formatted wall-clock timestamp. -/
structure RunEnv where
  setSendErr : Option PyErr
  setResp : String
  startErr : Option PyErr
  pollSendErr : Nat → Option PyErr
  pollResp : Nat → String
  pollTime : Nat → ℚ
  fallbackJitter : ℚ
  now : String

/-- The 30-second poll loop of run_torque_test, from iteration k.  The
while condition is checked first; fuel bounds the recursion depth of the
translation and InnerErr.fuelOut marks its exhaustion, which theorems
show unreachable once the clock advances by at least one second per
iteration (pollTime k then reaches 30 within 30 iterations). -/
def pollLoop (env : RunEnv) : Nat → Nat → Except InnerErr String × List Ev
  | 0, k =>
    if env.pollTime k < 30 then (Except.error InnerErr.fuelOut, [])
    else (Except.error InnerErr.timeout, [])
  | fuel + 1, k =>
    if env.pollTime k < 30 then
      match env.pollSendErr k with
      | some _ => (Except.error InnerErr.transport, [Ev.sent pollCmd])
      | none =>
        if containsSub "0200".data (env.pollResp k).data then
          (Except.ok (env.pollResp k), [Ev.sent pollCmd])
        else
          ((pollLoop env fuel (k + 1)).1, Ev.sent pollCmd :: (pollLoop env fuel (k + 1)).2)
    else (Except.error InnerErr.timeout, [])

/-- run_torque_test: raise "Not connected" before the try block when the
flag is down or the socket attribute is None; then set the target, start
the cycle, poll for a response containing "0200", and build the result
dict from parse_torque_result and the current timestamp. -/
def run_torque_test (st : LinkState) (env : RunEnv) (hole : String) (t : ℚ) (fuel : Nat) :
    Except RunErr TorqueTestResult × List Ev :=
  if st.connected = false || st.socket_connection = false then
    (Except.error RunErr.notConnected, [])
  else if (set_torque_target st env.setSendErr env.setResp t).1 = false then
    (Except.error (RunErr.failed InnerErr.setTarget),
      (set_torque_target st env.setSendErr env.setResp t).2)
  else
    match env.startErr with
    | some _ =>
      (Except.error (RunErr.failed InnerErr.transport),
        (set_torque_target st env.setSendErr env.setResp t).2 ++ [Ev.sent startCycleCmd])
    | none =>
      match (pollLoop env fuel 0).1 with
      | Except.ok resp =>
        (Except.ok { hole_label := hole, target_torque := t,
                     actual_torque := parse_torque_result resp t env.fallbackJitter,
                     timestamp := env.now },
          (set_torque_target st env.setSendErr env.setResp t).2 ++ [Ev.sent startCycleCmd]
            ++ (pollLoop env fuel 0).2)
      | Except.error e =>
        (Except.error (RunErr.failed e),
          (set_torque_target st env.setSendErr env.setResp t).2 ++ [Ev.sent startCycleCmd]
            ++ (pollLoop env fuel 0).2)

/-- simulate_torque_test: target plus the uniform draw from [-1.5, 1.5]
(the explicit variation parameter), labels passed through, current
timestamp attached.  It touches no transport: there is no state or trace
in its signature, matching a body that never reads self.socket_connection
or self.connected. -/
def simulate_torque_test (hole : String) (t : ℚ) (variation : ℚ) (now : String) :
    TorqueTestResult :=
  { hole_label := hole, target_torque := t, actual_torque := t + variation, timestamp := now }

/-- A link that a previous successful connect left Connected. -/
def stConn : LinkState := ⟨true, true⟩

/-- The poll response of the specification's mocked-transport scenario. -/
def resp1 : String := "...0200 002400..."

/-- Mocked transport for run_torque_test: set-torque acknowledged with OK,
every poll answered with resp1, clock advancing one second per iteration,
no transport errors. -/
def env1 : RunEnv :=
  { setSendErr := none, setResp := "OK", startErr := none,
    pollSendErr := fun _ => none,
    pollResp := fun _ => resp1,
    pollTime := fun k => (k : ℚ),
    fallbackJitter := 0, now := "2024-01-01 12:00:00" }

/-- Mocked transport whose poll responses never contain 0200. -/
def env2 : RunEnv :=
  { setSendErr := none, setResp := "OK", startErr := none,
    pollSendErr := fun _ => none,
    pollResp := fun _ => "BUSY",
    pollTime := fun k => (k : ℚ),
    fallbackJitter := 0, now := "2024-01-01 12:00:00" }

/-- Mocked transport whose first poll response carries 0200 embedded in
junk with no other digit run. -/
def env3 : RunEnv :=
  { setSendErr := none, setResp := "OK", startErr := none,
    pollSendErr := fun _ => none,
    pollResp := fun _ => "XX0200YY",
    pollTime := fun k => (k : ℚ),
    fallbackJitter := 0, now := "2024-01-01 12:00:00" }

/-- The result env3 produces: the digit run found in XX0200YY is the
marker itself, value 200, giving 200/100 as the actual torque. -/
def res3 : TorqueTestResult :=
  ⟨"C", 10, ((200 : ℕ) : ℚ) / 100, "2024-01-01 12:00:00"⟩

/-- Connect oracle where everything succeeds and the controller answers OK. -/
def envGood : ConnectEnv := ⟨true, none, none, "OK"⟩

/-- Connect oracle where the reachability check fails. -/
def envPingFail : ConnectEnv := ⟨false, none, none, ""⟩

/-- Probe oracle for a healthy controller. -/
def probeGood : ProbeEnv := ⟨true, none, none, none, "MT6000"⟩

/-- Probe oracle where the TCP connect raises an exception that is neither
socket.timeout nor ConnectionRefusedError (a DNS failure, say). -/
def probeCrash : ProbeEnv := ⟨true, some PyErr.other, none, none, ""⟩

/-- Claim C7: run_torque_test invoked while Disconnected raises the
pre-try "Not connected to controller" exception at once, with an empty
transport trace: no transport I/O is attempted, so a TorqueTestResult is
only ever produced while the link is Connected (the simulation path has
no transport in its signature at all). -/
theorem c7_not_connected_fails_immediately (st : LinkState) (env : RunEnv) (hole : String)
    (t : ℚ) (fuel : Nat) (h : st.connected = false) :
    run_torque_test st env hole t fuel = (Except.error RunErr.notConnected, []) := by
  unfold run_torque_test
  simp [h]

/-- Witness for C7 at a concrete Disconnected state and mocked transport. -/
theorem c7_witness :
    run_torque_test ⟨false, true⟩ env1 "A" 24 31 = (Except.error RunErr.notConnected, []) :=
  c7_not_connected_fails_immediately ⟨false, true⟩ env1 "A" 24 31 rfl

/-- Claim C8: test_connection never mutates the link state: the connected
flag and the socket attribute are returned exactly as they came in, on
every outcome path. -/
theorem c8_probe_preserves_state (st : LinkState) (env : ProbeEnv) :
    (test_connection st env).2.1 = st := by
  unfold test_connection
  repeat' split
  all_goals rfl

/-- Claim C9: simulate_torque_test passes the hole label, the target and
the timestamp through unchanged and returns target plus the uniform draw,
so with the draw inside [-1.5, 1.5] the actual torque lies within 1.5 of
the target (for target 20 that is [18.5, 21.5]). -/
theorem c9_simulate_contract (hole : String) (t v : ℚ) (now : String)
    (h1 : -(3/2) ≤ v) (h2 : v ≤ 3/2) :
    (simulate_torque_test hole t v now).hole_label = hole ∧
    (simulate_torque_test hole t v now).target_torque = t ∧
    (simulate_torque_test hole t v now).timestamp = now ∧
    t - 3/2 ≤ (simulate_torque_test hole t v now).actual_torque ∧
    (simulate_torque_test hole t v now).actual_torque ≤ t + 3/2 := by
  refine ⟨rfl, rfl, rfl, ?_, ?_⟩ <;> simp only [simulate_torque_test] <;> linarith

/-- Witness for C9 at hole B, target 20 and a zero draw. -/
theorem c9_witness :
    20 - 3/2 ≤ (simulate_torque_test "B" 20 0 "2024-01-01 12:00:00").actual_torque ∧
    (simulate_torque_test "B" 20 0 "2024-01-01 12:00:00").actual_torque ≤ 20 + 3/2 := by
  have h := c9_simulate_contract "B" 20 0 "2024-01-01 12:00:00"
    (neg_nonpos.mpr (le_of_lt (div_pos (by decide) (by decide))))
    (le_of_lt (div_pos (by decide) (by decide)))
  exact ⟨h.2.2.2.1, h.2.2.2.2⟩

/-- Claim C2, amended: connect returns true, and only then is the state
Connected, exactly when the ping succeeded, neither the TCP connect nor
the enable-remote send raised, and the response contains OK; on any
failure it returns false (never raising, being total); transport events
balance (every socket opened by the call, and any pre-existing handle, is
closed, except the one kept on success); the except-handler failures
clear the connected flag, but the ping-failure path returns with the
state untouched and the non-OK-response path only clears the socket
attribute: a link that a previous call left Connected stays flagged
Connected on those two failure paths, against the original claim. -/
theorem c2_connect_contract (st : LinkState) (env : ConnectEnv) :
    ((connect st env).1 = true ↔
      env.pingOk = true ∧ env.connectErr = none ∧ env.sendErr = none ∧
        containsSub "OK".data env.response.data = true) ∧
    ((connect st env).1 = true → (connect st env).2.1 = ⟨true, true⟩) ∧
    (env.pingOk = false → (connect st env).1 = false ∧ (connect st env).2.1 = st) ∧
    (env.pingOk = true → (env.connectErr ≠ none ∨ env.sendErr ≠ none) →
      (connect st env).1 = false ∧ (connect st env).2.1 = ⟨false, false⟩) ∧
    (env.pingOk = true → env.connectErr = none → env.sendErr = none →
      containsSub "OK".data env.response.data = false →
      (connect st env).1 = false ∧ (connect st env).2.1 = ⟨st.connected, false⟩) ∧
    closes (connect st env).2.2 + (if (connect st env).1 then 1 else 0) =
      opens (connect st env).2.2 + (if st.socket_connection then 1 else 0) := by
  obtain ⟨p, ce, se, resp⟩ := env
  obtain ⟨c, s⟩ := st
  cases p <;> cases s <;> cases ce <;> cases se <;>
    cases hok : containsSub "OK".data resp.data <;>
      simp [connect, closes, opens, hok, List.countP_cons, List.countP_nil]

/-- Counterexample to claim C2 as stated: a link already Connected, a
reconnect attempt whose reachability check fails; connect returns
failure, yet the connected flag is still true afterwards, so the state
does not remain or return to Disconnected. -/
theorem c2_counterexample :
    (connect stConn envPingFail).1 = false ∧
    (connect stConn envPingFail).2.1.connected = true := by
  decide

/-- Witness for C2 at a fresh link and an all-good transport. -/
theorem c2_witness :
    (connect ⟨false, false⟩ envGood).1 = true ∧
    (connect ⟨false, false⟩ envGood).2.1 = ⟨true, true⟩ := by
  have h := c2_connect_contract ⟨false, false⟩ envGood
  exact ⟨(h.1).mpr (by decide), h.2.1 ((h.1).mpr (by decide))⟩

/-- Claim C3, amended: disconnect always ends with the connected flag
cleared (the finally block guarantees that much); and whenever the
best-effort disable send does not raise, or the link was not flagged
connected, the socket is closed and the attribute cleared.  But when the
send raises, the except handler is entered before the close statement,
so the transport is not closed: the close does not sit in the
guaranteed-cleanup path the original claim describes. -/
theorem c3_disconnect_contract (st : LinkState) (env : DisconnectEnv) :
    (disconnect st env).1.connected = false ∧
    (env.sendErr = none → st.socket_connection = true →
      (disconnect st env).1.socket_connection = false ∧ Ev.closed ∈ (disconnect st env).2) ∧
    (st.connected = false → st.socket_connection = true →
      (disconnect st env).1.socket_connection = false ∧ Ev.closed ∈ (disconnect st env).2) := by
  obtain ⟨c, s⟩ := st
  obtain ⟨se⟩ := env
  cases c <;> cases s <;> cases se <;> simp [disconnect]

/-- Counterexample to claim C3 as stated: connected link, disable send
raises (as it does when the transport is already closed); the trace holds
no close event and the socket attribute is still set, so the transport
was not closed. -/
theorem c3_counterexample :
    (disconnect ⟨true, true⟩ ⟨some PyErr.other⟩).2 = [Ev.sent disableRemoteCmd] ∧
    Ev.closed ∉ (disconnect ⟨true, true⟩ ⟨some PyErr.other⟩).2 ∧
    (disconnect ⟨true, true⟩ ⟨some PyErr.other⟩).1.socket_connection = true ∧
    (disconnect ⟨true, true⟩ ⟨some PyErr.other⟩).1.connected = false := by
  decide

/-- Witness for C3: a connected link whose disable send goes through. -/
theorem c3_witness :
    (disconnect ⟨true, true⟩ ⟨none⟩).1.socket_connection = false ∧
    Ev.closed ∈ (disconnect ⟨true, true⟩ ⟨none⟩).2 :=
  (c3_disconnect_contract ⟨true, true⟩ ⟨none⟩).2.1 rfl rfl

/-- Claim C4, amended: test_connection closes its temporary socket on the
enumerated normal paths, namely successful identification, pattern
mismatch, empty response, receive timeout and connection refusal (close
count equals open count there); but an exception of any other class
during connect, send or recv escapes the inner handlers to the outer
except, which returns False without closing, against the original claim
that every outcome path closes the socket. -/
theorem c4_probe_closes_on_handled_paths (st : LinkState) (env : ProbeEnv)
    (h1 : env.connectErr ≠ some PyErr.other) (h2 : env.sendErr ≠ some PyErr.other)
    (h3 : env.recvErr ≠ some PyErr.other) :
    closes (test_connection st env).2.2 = opens (test_connection st env).2.2 := by
  unfold test_connection
  repeat' split
  all_goals simp_all [closes, opens, List.countP_cons, List.countP_nil]

/-- Counterexample to claim C4 as stated: the TCP connect raises an
exception that is neither socket.timeout nor ConnectionRefusedError; the
probe returns with the socket opened and never closed. -/
theorem c4_counterexample :
    (test_connection ⟨false, false⟩ probeCrash).1 = false ∧
    (test_connection ⟨false, false⟩ probeCrash).2.2 = [Ev.opened] ∧
    closes (test_connection ⟨false, false⟩ probeCrash).2.2 = 0 ∧
    opens (test_connection ⟨false, false⟩ probeCrash).2.2 = 1 := by
  decide

/-- Witness for C4 on the successful-identification path. -/
theorem c4_witness :
    closes (test_connection ⟨false, false⟩ probeGood).2.2 =
      opens (test_connection ⟨false, false⟩ probeGood).2.2 :=
  c4_probe_closes_on_handled_paths ⟨false, false⟩ probeGood (by decide) (by decide) (by decide)

theorem digitChar_isDigit (d : Nat) (h : d < 10) : (Nat.digitChar d).isDigit = true := by
  interval_cases d <;> decide

theorem digitVal_digitChar (d : Nat) (h : d < 10) : digitVal (Nat.digitChar d) = d := by
  interval_cases d <;> decide

theorem takeDigits_map_digitChar (ds : List Nat) (h : ∀ d ∈ ds, d < 10) :
    takeDigits (ds.map Nat.digitChar) = ds := by
  induction ds with
  | nil => rfl
  | cons d rest ih =>
    have hd : d < 10 := h d (by simp)
    rw [List.map_cons, takeDigits, if_pos (digitChar_isDigit d hd), digitVal_digitChar d hd,
      ih (fun x hx => h x (by simp [hx]))]

theorem digitsToNat_append (l : List Nat) (a : Nat) :
    digitsToNat (l ++ [a]) = 10 * digitsToNat l + a := by
  simp [digitsToNat, List.foldl_append]
  omega

theorem digitsToNat_replicate_zero (k : Nat) (l : List Nat) :
    digitsToNat (List.replicate k 0 ++ l) = digitsToNat l := by
  induction k with
  | zero => rfl
  | succ k ih =>
    rw [List.replicate_succ, List.cons_append]
    exact ih

theorem digitsAuxBE_lt (fuel : Nat) : ∀ n d, d ∈ digitsAuxBE fuel n → d < 10 := by
  induction fuel with
  | zero => intro n d hd; simp [digitsAuxBE] at hd
  | succ fuel ih =>
    intro n d hd
    rw [digitsAuxBE] at hd
    by_cases hn : n = 0
    · simp [hn] at hd
    · rw [if_neg hn] at hd
      rcases List.mem_append.mp hd with h | h
      · exact ih (n / 10) d h
      · have : d = n % 10 := by simpa using h
        omega

theorem digitsToNat_digitsAuxBE (fuel : Nat) : ∀ n, n ≤ fuel →
    digitsToNat (digitsAuxBE fuel n) = n := by
  induction fuel with
  | zero =>
    intro n hn
    have : n = 0 := by omega
    subst this
    rfl
  | succ fuel ih =>
    intro n hn
    rw [digitsAuxBE]
    by_cases h0 : n = 0
    · subst h0; rfl
    · rw [if_neg h0, digitsToNat_append, ih (n / 10) (by omega)]
      omega

theorem digitsAuxBE_length (fuel : Nat) : ∀ n k, n < 10 ^ k →
    (digitsAuxBE fuel n).length ≤ k := by
  induction fuel with
  | zero => intro n k _; simp [digitsAuxBE]
  | succ fuel ih =>
    intro n k hk
    rw [digitsAuxBE]
    by_cases h0 : n = 0
    · simp [h0]
    · rw [if_neg h0]
      cases k with
      | zero =>
        simp at hk
        omega
      | succ k =>
        have h2 : n / 10 < 10 ^ k := by
          rw [Nat.div_lt_iff_lt_mul (by omega : 0 < 10)]
          calc n < 10 ^ (k + 1) := hk
            _ = 10 ^ k * 10 := by ring
        have := ih (n / 10) k h2
        simp [List.length_append]
        omega

theorem padZeros_length (w : Nat) (ds : List Nat) (h : ds.length ≤ w) :
    (padZeros w ds).length = w := by
  simp [padZeros]
  omega

theorem firstDigitRun_four (ds : List Nat) (h10 : ∀ d ∈ ds, d < 10) (hlen : ds.length = 4) :
    firstDigitRun (ds.map Nat.digitChar) = some (digitsToNat ds) := by
  have ht := takeDigits_map_digitChar ds h10
  rcases ds with _ | ⟨a, _ | ⟨b, _ | ⟨c, _ | ⟨d, _ | _⟩⟩⟩⟩ <;> simp at hlen
  simp only [List.map_cons, List.map_nil] at ht ⊢
  rw [firstDigitRun, ht, if_pos (by simp), List.take_of_length_le (by simp)]

theorem intTrunc_nonneg (q : ℚ) (h : 0 ≤ q) : 0 ≤ intTrunc q := by
  rw [intTrunc, if_pos (Rat.num_nonneg.mpr h)]
  exact Int.natCast_nonneg _

theorem intTrunc_bounds (q : ℚ) (h : 0 ≤ q) :
    (intTrunc q : ℚ) ≤ q ∧ q < intTrunc q + 1 := by
  have hn : 0 ≤ q.num := Rat.num_nonneg.mpr h
  have hD : 0 < q.den := q.den_pos
  rw [intTrunc, if_pos hn]
  set N := q.num.toNat with hN
  set D := q.den with hDdef
  have hDq : (0 : ℚ) < (D : ℚ) := by exact_mod_cast hD
  have hq : ((N : ℚ)) / (D : ℚ) = q := by
    have h1 : ((N : ℚ)) = ((q.num : ℤ) : ℚ) := by
      rw [hN]; exact_mod_cast Int.toNat_of_nonneg hn
    rw [h1, hDdef]
    exact Rat.num_div_den q
  constructor
  · push_cast
    rw [← hq, le_div_iff₀ hDq]
    exact_mod_cast Nat.div_mul_le_self N D
  · push_cast
    rw [← hq, div_lt_iff₀ hDq]
    have h1 := Nat.div_add_mod N D
    have h2 := Nat.mod_lt N hD
    have h3 : N < (N / D + 1) * D := by
      have he : (N / D + 1) * D = D * (N / D) + D := by ring
      omega
    exact_mod_cast h3

/-- Claim C5: for nonnegative target torque below the capacity of the
4-digit zero-padded wire field (that is, with int(t * 100) at most 9999,
equivalently t < 100), formatting the truncated centi-Ncm value and
parsing the first 4-6 digit run back recovers the torque to within
0.01 Ncm. -/
theorem c5_wire_roundtrip (t : ℚ) (h0 : 0 ≤ t) (h1 : t < 100) :
    0 ≤ torqueCnm t ∧ torqueCnm t ≤ 9999 ∧
    ∃ v, roundTrip t = some v ∧ |t - v| < 1 / 100 := by
  have h100 : (0 : ℚ) ≤ t * 100 := by positivity
  have hnn : 0 ≤ torqueCnm t := by rw [torqueCnm]; exact intTrunc_nonneg _ h100
  have hle : ((torqueCnm t : ℤ) : ℚ) ≤ t * 100 := by
    rw [torqueCnm]; exact (intTrunc_bounds _ h100).1
  have hlt : t * 100 < ((torqueCnm t : ℤ) : ℚ) + 1 := by
    rw [torqueCnm]; exact (intTrunc_bounds _ h100).2
  have hub : torqueCnm t ≤ 9999 := by
    by_contra hc
    push_neg at hc
    have hge : (10000 : ℚ) ≤ ((torqueCnm t : ℤ) : ℚ) := by exact_mod_cast hc
    nlinarith
  have hmn : ((torqueCnm t).toNat : ℤ) = torqueCnm t := Int.toNat_of_nonneg hnn
  have hn9 : (torqueCnm t).toNat ≤ 9999 := by omega
  have hn4 : (torqueCnm t).toNat < 10 ^ 4 := by omega
  have hfmt : formatInt04 (torqueCnm t)
      = digitsToString (padZeros 4 (natDigitsBE (torqueCnm t).toNat)) := by
    rw [formatInt04, if_neg (by omega)]
  have hall : ∀ d ∈ padZeros 4 (natDigitsBE (torqueCnm t).toNat), d < 10 := by
    intro d hd
    rcases List.mem_append.mp hd with h | h
    · have : d = 0 := List.eq_of_mem_replicate h
      omega
    · exact digitsAuxBE_lt _ _ d h
  have hlen4 : (padZeros 4 (natDigitsBE (torqueCnm t).toNat)).length = 4 :=
    padZeros_length _ _ (digitsAuxBE_length _ _ 4 hn4)
  have hval : digitsToNat (padZeros 4 (natDigitsBE (torqueCnm t).toNat))
      = (torqueCnm t).toNat := by
    rw [padZeros, digitsToNat_replicate_zero]
    exact digitsToNat_digitsAuxBE _ _ le_rfl
  refine ⟨hnn, hub, ((torqueCnm t).toNat : ℚ) / 100, ?_, ?_⟩
  · rw [roundTrip, parseWire, hfmt]
    have hdata : (digitsToString (padZeros 4 (natDigitsBE (torqueCnm t).toNat))).data
        = (padZeros 4 (natDigitsBE (torqueCnm t).toNat)).map Nat.digitChar := rfl
    rw [hdata, firstDigitRun_four _ hall hlen4, hval]
    rfl
  · have hcast : (((torqueCnm t).toNat : ℚ)) = ((torqueCnm t : ℤ) : ℚ) := by
      exact_mod_cast hmn
    rw [hcast, abs_of_nonneg (by linarith)]
    linarith

/-- Witness for C5 at target torque 24 Ncm. -/
theorem c5_witness :
    (0 : ℚ) ≤ 24 ∧ (24 : ℚ) < 100 ∧
    (0 ≤ torqueCnm 24 ∧ torqueCnm 24 ≤ 9999 ∧
      ∃ v, roundTrip 24 = some v ∧ |24 - v| < 1 / 100) :=
  ⟨by decide, by decide, c5_wire_roundtrip 24 (by decide) (by decide)⟩

theorem pollLoop_no_marker_times_out (env : RunEnv)
    (hsend : ∀ k, env.pollSendErr k = none)
    (hno : ∀ k, containsSub "0200".data (env.pollResp k).data = false)
    (hmono : ∀ k, env.pollTime k + 1 ≤ env.pollTime (k + 1)) :
    ∀ (fuel k : ℕ), (30 : ℚ) ≤ env.pollTime k + (fuel : ℚ) →
      (pollLoop env fuel k).1 = Except.error InnerErr.timeout := by
  intro fuel
  induction fuel with
  | zero =>
    intro k hk
    rw [pollLoop, if_neg (by push_cast at hk; exact not_lt.mpr (by linarith))]
  | succ fuel ih =>
    intro k hk
    rw [pollLoop]
    by_cases ht : env.pollTime k < 30
    · rw [if_pos ht, hsend k]
      simp only [hno k, Bool.false_eq_true, if_false]
      apply ih
      have := hmono k
      push_cast at hk ⊢
      linarith
    · rw [if_neg ht]

/-- Claim C6: when the mocked transport reaches the poll loop (target
accepted with OK, start command sent) but no poll response ever contains
the substring 0200, and the clock advances by at least one second per
iteration (the two half-second sleeps of the loop body), run_torque_test
terminates once the 30-second deadline is observed and raises the
timeout failure instead of returning a result; any recursion budget of
at least 30 gives the same outcome, so the loop is bounded by the
deadline, not by the budget. -/
theorem c6_no_marker_times_out (st : LinkState) (env : RunEnv) (hole : String) (t : ℚ)
    (fuel : Nat)
    (hc : st.connected = true) (hs : st.socket_connection = true)
    (hset : env.setSendErr = none)
    (hsr : containsSub "OK".data env.setResp.data = true)
    (hstart : env.startErr = none)
    (hsend : ∀ k, env.pollSendErr k = none)
    (hno : ∀ k, containsSub "0200".data (env.pollResp k).data = false)
    (ht0 : env.pollTime 0 = 0)
    (hmono : ∀ k, env.pollTime k + 1 ≤ env.pollTime (k + 1))
    (hfuel : 30 ≤ fuel) :
    (run_torque_test st env hole t fuel).1 = Except.error (RunErr.failed InnerErr.timeout) := by
  have hp : (pollLoop env fuel 0).1 = Except.error InnerErr.timeout := by
    apply pollLoop_no_marker_times_out env hsend hno hmono
    rw [ht0]
    have : (30 : ℚ) ≤ (fuel : ℚ) := by exact_mod_cast hfuel
    linarith
  rw [run_torque_test]
  simp [hc, hs, set_torque_target, hset, hsr, hstart, hp]

/-- Witness for C6: a connected link, a transport that answers every poll
with BUSY, a clock ticking one second per iteration and a budget of 30. -/
theorem c6_witness :
    (run_torque_test stConn env2 "A" 24 30).1 = Except.error (RunErr.failed InnerErr.timeout) :=
  c6_no_marker_times_out stConn env2 "A" 24 30 rfl rfl rfl (by decide) rfl
    (fun _ => rfl) (fun k => by show containsSub "0200".data "BUSY".data = false; decide)
    (by exact Nat.cast_zero) (fun k => le_of_eq (Nat.cast_succ k).symm) (by decide)

theorem leadsWith_digits_le_takeDigits (z : List Char) :
    ∀ l, (∀ c ∈ z, c.isDigit = true) → leadsWith z l = true →
      z.length ≤ (takeDigits l).length := by
  induction z with
  | nil => intro l _ _; simp
  | cons c cs ih =>
    intro l hz hl
    cases l with
    | nil => simp [leadsWith] at hl
    | cons b bs =>
      rw [leadsWith, Bool.and_eq_true] at hl
      obtain ⟨hcb, hcs⟩ := hl
      have hb : c = b := by simpa using hcb
      subst hb
      have hc : c.isDigit = true := hz c (by simp)
      rw [takeDigits, if_pos hc]
      simp only [List.length_cons]
      exact Nat.succ_le_succ (ih bs (fun x hx => hz x (by simp [hx])) hcs)

theorem contains_marker_firstDigitRun_isSome (l : List Char)
    (h : containsSub "0200".data l = true) : (firstDigitRun l).isSome = true := by
  induction l with
  | nil => exact absurd h (by decide)
  | cons c t ih =>
    rw [containsSub, Bool.or_eq_true] at h
    rcases h with hpre | ht
    · have hlen : 4 ≤ (takeDigits (c :: t)).length := by
        have h4 : ("0200".data).length = 4 := rfl
        have := leadsWith_digits_le_takeDigits "0200".data (c :: t) (by decide) hpre
        omega
      rw [firstDigitRun, if_pos hlen]
      rfl
    · rw [firstDigitRun]
      split
      · rfl
      · exact ih ht

theorem pollLoop_ok_contains (env : RunEnv) :
    ∀ (fuel k : ℕ) (resp : String), (pollLoop env fuel k).1 = Except.ok resp →
      containsSub "0200".data resp.data = true := by
  intro fuel
  induction fuel with
  | zero =>
    intro k resp h
    rw [pollLoop] at h
    split at h <;> simp at h
  | succ fuel ih =>
    intro k resp h
    rw [pollLoop] at h
    split at h
    · split at h
      · simp at h
      · split at h
        · rename_i hacc
          simp at h
          rw [← h]
          exact hacc
        · dsimp at h
          exact ih (k + 1) resp h
    · simp at h

/-- Claim C10: any response the poll loop accepts contains the substring
0200, which is itself a run of four decimal digits, so the digit-run
regex of parse_torque_result always matches on the normal path of
run_torque_test: every result it returns carries an actual torque of the
form digit-run over 100, and the randomized fallback branch is
unreachable from there. -/
theorem c10_accepted_response_always_parses (st : LinkState) (env : RunEnv) (hole : String)
    (t : ℚ) (fuel : Nat) (res : TorqueTestResult)
    (h : (run_torque_test st env hole t fuel).1 = Except.ok res) :
    ∃ resp n, (pollLoop env fuel 0).1 = Except.ok resp ∧
      firstDigitRun resp.data = some n ∧ res.actual_torque = (n : ℚ) / 100 := by
  rw [run_torque_test] at h
  split at h
  · simp at h
  · split at h
    · simp at h
    · split at h
      · simp at h
      · split at h
        · rename_i resp heq
          have h2 : TorqueTestResult.mk hole t
              (parse_torque_result resp t env.fallbackJitter) env.now = res :=
            (Except.ok.injEq _ _).mp h
          have hcontains := pollLoop_ok_contains env fuel 0 resp heq
          have hsome := contains_marker_firstDigitRun_isSome resp.data hcontains
          obtain ⟨n, hn⟩ := Option.isSome_iff_exists.mp hsome
          refine ⟨resp, n, heq, hn, ?_⟩
          have h3 : parse_torque_result resp t env.fallbackJitter = (n : ℚ) / 100 := by
            rw [parse_torque_result, hn]
          rw [← h2]
          exact h3
        · simp at h

/-- Witness for C10 on a transport whose accepted response is XX0200YY. -/
theorem c10_witness :
    ∃ resp n, (pollLoop env3 31 0).1 = Except.ok resp ∧
      firstDigitRun resp.data = some n ∧ res3.actual_torque = (n : ℚ) / 100 :=
  c10_accepted_response_always_parses stConn env3 "C" 10 31 res3 rfl

/-- Counterexample to claim C1 as stated: with the mocked transport
answering the result poll with the text containing 0200 002400,
run_torque_test for hole A at 24.0 Ncm does not return 24.0 as the
actual torque. -/
theorem c1_counterexample :
    (run_torque_test stConn env1 "A" 24 31).1.map TorqueTestResult.actual_torque ≠
      Except.ok 24 := by
  have h : (run_torque_test stConn env1 "A" 24 31).1.map TorqueTestResult.actual_torque =
      Except.ok (((200 : ℕ) : ℚ) / 100) := rfl
  rw [h]
  intro hc
  rw [Except.ok.injEq] at hc
  norm_num at hc

/-- Claim C1, amended: on the mocked transport whose result-poll response
is the text around 0200 002400, run_torque_test for hole A at 24.0 Ncm
returns a result whose actual torque is 2.0, because the first run of
4-6 consecutive decimal digits in the decoded response is the status
token 0200 itself, parsed as 200 centi-Ncm and divided by 100; the 2400
field is never reached by the leftmost regex search. -/
theorem c1_first_run_is_marker :
    (run_torque_test stConn env1 "A" 24 31).1.map TorqueTestResult.actual_torque =
      Except.ok 2 ∧
    firstDigitRun resp1.data = some 200 := by
  constructor
  · have h : (run_torque_test stConn env1 "A" 24 31).1.map TorqueTestResult.actual_torque =
        Except.ok (((200 : ℕ) : ℚ) / 100) := rfl
    rw [h, Except.ok.injEq]
    norm_num
  · decide

end Tooltalk
